import Mathlib

/-!
# The GameLift hosting adapter (`pkg/hosting/gamelift/sdk/sdk.go`)

A shallow embedding of the seven methods of `Sdk`.  Each method talks to two
collaborators that live outside the package: the logging sink held in
`sdk.logger` and the hosting client (the `server` package of the GameLift
server SDK).  Both are effects, so a method is a state transformer over a
`World`:

* `World.trace` is the chronological record of what the adapter did to its
  collaborators: every record handed to the logging sink and every hosting
  client entry point it invoked, with the arguments it passed;
* `World.server` is the hosting client's own (hidden) state, advanced by the
  client's entry points, which are a parameter (`Env`) of every method.

Types declared by the external SDK are taken with the fields that `sdk.go`
touches spelled out and the remaining fields gathered in one `Other`
component of parametric type.  The receiver's `logger` pointer is taken to be
a usable sink, and a call of `DebugContext` counts as the emission of a
debug-level record (whether a handler then drops it is the sink's business).
Records the hosting client writes on its own account, through the logger
interface installed by `NewSdk`, are the client's doing: they belong to its
hidden state and not to the trace.
-/

namespace GameLift

/-! ## Data passed through the adapter -/

/-- Go's `server.ServerParameters`: the four fields assigned in `InitSDK`, the
rest of the struct in `Other`. -/
structure ServerParameters (ρ : Type) where
  AuthToken : String
  AccessKey : String
  SecretKey : String
  SessionToken : String
  Other : ρ
  deriving DecidableEq, Repr

/-- Go's `server.ProcessParameters`: the port, the logging configuration, and
the rest of the struct in `Other`. -/
structure ProcessParameters (L π : Type) where
  Port : Int
  LogParameters : L
  Other : π
  deriving DecidableEq, Repr

/-- Go's `request.GetFleetRoleCredentialsRequest`: the two fields assigned in
`GetFleetRoleCredentials`, the rest of the struct in `Other`. -/
structure GetFleetRoleCredentialsRequest (κ : Type) where
  RoleArn : String
  RoleSessionName : String
  Other : κ
  deriving DecidableEq, Repr

/-- The credentials record returned by `server.GetFleetRoleCredentials`: the
three fields read by the adapter, the rest of the struct in `Other`. -/
structure GetFleetRoleCredentialsResult (γ : Type) where
  AccessKeyID : String
  SecretAccessKey : String
  SessionToken : String
  Other : γ
  deriving DecidableEq, Repr

/-! ## The logging sink -/

/-- Levels of `log/slog`. -/
inductive Level where
  | Debug
  | Info
  | Warn
  | Error
  deriving DecidableEq, Repr

/-- The values the adapter attaches to a log record. -/
inductive LogValue (ρ L : Type) where
  | serverParameters (v : ServerParameters ρ)
  | int (v : Int)
  | logParameters (v : L)
  | string (v : String)
  deriving DecidableEq, Repr

/-- One record handed to the logging sink: context, level, message and the
key/value pairs in the order given. -/
structure LogRecord (Ctx ρ L : Type) where
  ctx : Ctx
  level : Level
  msg : String
  args : List (String × LogValue ρ L)
  deriving DecidableEq, Repr

/-! ## The hosting client -/

/-- An invocation of a hosting client entry point, with its argument. -/
inductive ServerCall (ρ L π κ : Type) where
  | InitSDK (params : ServerParameters ρ)
  | InitSDKFromEnvironment
  | ProcessReady (params : ProcessParameters L π)
  | ProcessEnding
  | ActivateGameSession
  | GetFleetRoleCredentials (req : GetFleetRoleCredentialsRequest κ)
  | Destroy
  deriving DecidableEq, Repr

/-- What the adapter did to a collaborator. -/
inductive Event (Ctx ρ L π κ : Type) where
  | log (r : LogRecord Ctx ρ L)
  | call (c : ServerCall ρ L π κ)
  deriving DecidableEq, Repr

/-- The external SDK as the adapter sees it: the entry points of package
`server` and the request constructor of package `request`, each a transition of
the SDK's state `σ`.  A Go `error` result is `Option ε`, `none` being `nil`. -/
structure Env (ρ L π κ γ ε σ : Type) where
  InitSDK : ServerParameters ρ → σ → Option ε × σ
  InitSDKFromEnvironment : σ → Option ε × σ
  ProcessReady : ProcessParameters L π → σ → Option ε × σ
  ProcessEnding : σ → Option ε × σ
  ActivateGameSession : σ → Option ε × σ
  GetFleetRoleCredentials :
    GetFleetRoleCredentialsRequest κ → σ → (GetFleetRoleCredentialsResult γ × Option ε) × σ
  Destroy : σ → Option ε × σ
  NewGetFleetRoleCredentials : σ → GetFleetRoleCredentialsRequest κ × σ

/-- The state a method runs in. -/
structure World (Ctx ρ L π κ σ : Type) where
  trace : List (Event Ctx ρ L π κ)
  server : σ

/-- Computations of the adapter. -/
abbrev M (Ctx ρ L π κ σ : Type) := StateM (World Ctx ρ L π κ σ)

section Embedding

variable {Ctx ρ L π κ γ ε σ : Type}

/-- The method `(*slog.Logger).DebugContext` on `sdk.logger`: hand one
debug-level record to the sink. -/
def logger.DebugContext (ctx : Ctx) (msg : String) (args : List (String × LogValue ρ L)) :
    M Ctx ρ L π κ σ Unit :=
  modify fun w => { w with trace := w.trace ++ [Event.log ⟨ctx, Level.Debug, msg, args⟩] }

/-- Invoke a hosting client entry point: note the call, run the client. -/
def invoke {α : Type} (c : ServerCall ρ L π κ) (f : σ → α × σ) : M Ctx ρ L π κ σ α := do
  let w ← get
  let (a, s) := f w.server
  set ({ trace := w.trace ++ [Event.call c], server := s } : World Ctx ρ L π κ σ)
  pure a

/-- The function `request.NewGetFleetRoleCredentials`. -/
def request.NewGetFleetRoleCredentials (env : Env ρ L π κ γ ε σ) :
    M Ctx ρ L π κ σ (GetFleetRoleCredentialsRequest κ) := do
  let w ← get
  let (r, s) := env.NewGetFleetRoleCredentials w.server
  set ({ w with server := s } : World Ctx ρ L π κ σ)
  pure r

/-- The function `server.InitSDK`. -/
def server.InitSDK (env : Env ρ L π κ γ ε σ) (params : ServerParameters ρ) :
    M Ctx ρ L π κ σ (Option ε) :=
  invoke (ServerCall.InitSDK params) (env.InitSDK params)

/-- The function `server.InitSDKFromEnvironment`. -/
def server.InitSDKFromEnvironment (env : Env ρ L π κ γ ε σ) : M Ctx ρ L π κ σ (Option ε) :=
  invoke ServerCall.InitSDKFromEnvironment env.InitSDKFromEnvironment

/-- The function `server.ProcessReady`. -/
def server.ProcessReady (env : Env ρ L π κ γ ε σ) (params : ProcessParameters L π) :
    M Ctx ρ L π κ σ (Option ε) :=
  invoke (ServerCall.ProcessReady params) (env.ProcessReady params)

/-- The function `server.ProcessEnding`. -/
def server.ProcessEnding (env : Env ρ L π κ γ ε σ) : M Ctx ρ L π κ σ (Option ε) :=
  invoke ServerCall.ProcessEnding env.ProcessEnding

/-- The function `server.ActivateGameSession`. -/
def server.ActivateGameSession (env : Env ρ L π κ γ ε σ) : M Ctx ρ L π κ σ (Option ε) :=
  invoke ServerCall.ActivateGameSession env.ActivateGameSession

/-- The function `server.GetFleetRoleCredentials`. -/
def server.GetFleetRoleCredentials (env : Env ρ L π κ γ ε σ)
    (req : GetFleetRoleCredentialsRequest κ) :
    M Ctx ρ L π κ σ (GetFleetRoleCredentialsResult γ × Option ε) :=
  invoke (ServerCall.GetFleetRoleCredentials req) (env.GetFleetRoleCredentials req)

/-- The function `server.Destroy`. -/
def server.Destroy (env : Env ρ L π κ γ ε σ) : M Ctx ρ L π κ σ (Option ε) :=
  invoke ServerCall.Destroy env.Destroy

/-! ## The methods of `Sdk` -/

/-- The method `Sdk.InitSDK`. -/
def Sdk.InitSDK (env : Env ρ L π κ γ ε σ) (ctx : Ctx) (params : ServerParameters ρ) :
    M Ctx ρ L π κ σ (Option ε) := do
  let redactedParams := params
  let redactedParams := { redactedParams with AuthToken := "<REDACTED>" }
  let redactedParams := { redactedParams with AccessKey := "<REDACTED>" }
  let redactedParams := { redactedParams with SecretKey := "<REDACTED>" }
  let redactedParams := { redactedParams with SessionToken := "<REDACTED>" }
  logger.DebugContext ctx "InitSDK called" [("params", LogValue.serverParameters redactedParams)]
  server.InitSDK env params

/-- The method `Sdk.InitSDKFromEnvironment`. -/
def Sdk.InitSDKFromEnvironment (env : Env ρ L π κ γ ε σ) (ctx : Ctx) :
    M Ctx ρ L π κ σ (Option ε) := do
  logger.DebugContext ctx "InitSDKFromEnvironment called" []
  server.InitSDKFromEnvironment env

/-- The method `Sdk.ProcessReady`. -/
def Sdk.ProcessReady (env : Env ρ L π κ γ ε σ) (ctx : Ctx) (params : ProcessParameters L π) :
    M Ctx ρ L π κ σ (Option ε) := do
  logger.DebugContext ctx "ProcessReady called"
    [("port", LogValue.int params.Port), ("logParams", LogValue.logParameters params.LogParameters)]
  server.ProcessReady env params

/-- The method `Sdk.ProcessEnding`. -/
def Sdk.ProcessEnding (env : Env ρ L π κ γ ε σ) (ctx : Ctx) : M Ctx ρ L π κ σ (Option ε) := do
  logger.DebugContext ctx "ProcessEnding called" []
  server.ProcessEnding env

/-- The method `Sdk.ActivateGameSession`. -/
def Sdk.ActivateGameSession (env : Env ρ L π κ γ ε σ) (ctx : Ctx) :
    M Ctx ρ L π κ σ (Option ε) := do
  logger.DebugContext ctx "ActivateGameSession called" []
  server.ActivateGameSession env

/-- The method `Sdk.GetFleetRoleCredentials`. -/
def Sdk.GetFleetRoleCredentials (env : Env ρ L π κ γ ε σ) (ctx : Ctx) (roleArn : String)
    (roleSessionName : String) : M Ctx ρ L π κ σ (String × String × String × Option ε) := do
  logger.DebugContext ctx "GetFleetRoleCredentials called"
    [("roleArn", LogValue.string roleArn), ("roleSessionName", LogValue.string roleSessionName)]
  let req ← request.NewGetFleetRoleCredentials env
  let req := { req with RoleArn := roleArn }
  let req := { req with RoleSessionName := roleSessionName }
  let (creds, err) ← server.GetFleetRoleCredentials env req
  if err.isSome then
    return ("", "", "", err)
  return (creds.AccessKeyID, creds.SecretAccessKey, creds.SessionToken, none)

/-- The method `Sdk.Destroy`. -/
def Sdk.Destroy (env : Env ρ L π κ γ ε σ) (ctx : Ctx) : M Ctx ρ L π κ σ (Option ε) := do
  logger.DebugContext ctx "Destroy called" []
  server.Destroy env

/-! ## Observing a run -/

/-- The events a computation adds to the trace when run from `w`. -/
def emitted {α : Type} (m : M Ctx ρ L π κ σ α) (w : World Ctx ρ L π κ σ) :
    List (Event Ctx ρ L π κ) :=
  (m.run w).2.trace.drop w.trace.length

/-- The value a computation returns when run from `w`. -/
def returned {α : Type} (m : M Ctx ρ L π κ σ α) (w : World Ctx ρ L π κ σ) : α :=
  (m.run w).1

/-- The log records among some events, in order. -/
def logRecords : List (Event Ctx ρ L π κ) → List (LogRecord Ctx ρ L)
  | [] => []
  | Event.log r :: es => r :: logRecords es
  | Event.call _ :: es => logRecords es

/-- The hosting client calls among some events, in order. -/
def serverCalls : List (Event Ctx ρ L π κ) → List (ServerCall ρ L π κ)
  | [] => []
  | Event.log _ :: es => serverCalls es
  | Event.call c :: es => c :: serverCalls es

/-- The values logged under `key` by some events, in order. -/
def loggedUnder (key : String) (es : List (Event Ctx ρ L π κ)) : List (LogValue ρ L) :=
  ((logRecords es).map fun r => (r.args.filter fun kv => kv.1 == key).map Prod.snd).flatten

/-- The four secrets carried by a `ServerParameters` value. -/
def ServerParameters.secrets (p : ServerParameters ρ) : List String :=
  [p.AuthToken, p.AccessKey, p.SecretKey, p.SessionToken]

/-- The text of every field of a `ServerParameters` value, `others` giving the
text of the fields gathered in `Other`. -/
def ServerParameters.fields (others : ρ → List String) (p : ServerParameters ρ) : List String :=
  [p.AuthToken, p.AccessKey, p.SecretKey, p.SessionToken] ++ others p.Other

/-- The `ServerParameters` values among some logged values. -/
def loggedParameters : List (LogValue ρ L) → List (ServerParameters ρ)
  | [] => []
  | LogValue.serverParameters v :: vs => v :: loggedParameters vs
  | _ :: vs => loggedParameters vs

end Embedding

/-- The string `s` is a substring of `t`. -/
def occursIn (s t : String) : Prop := s.data <:+: t.data

instance (s t : String) : Decidable (occursIn s t) := by
  unfold occursIn
  infer_instance

/-! ## Concrete collaborators for the examples -/

/-- Non-sensitive fields of `ServerParameters` in the examples: name and text. -/
abbrev ExOther := List (String × String)

/-- The text of the example's non-sensitive fields. -/
def exOthers (o : ExOther) : List String := o.map Prod.snd

/-- A hosting client whose every entry point succeeds; its state counts the
calls made, and the credentials it issues are `AK1`, `SK1`, `ST1`. -/
def okEnv : Env ExOther (List String) Unit Nat Unit String Nat where
  InitSDK := fun _ n => (none, n + 1)
  InitSDKFromEnvironment := fun n => (none, n + 1)
  ProcessReady := fun _ n => (none, n + 1)
  ProcessEnding := fun n => (none, n + 1)
  ActivateGameSession := fun n => (none, n + 1)
  GetFleetRoleCredentials := fun _ n => ((⟨"AK1", "SK1", "ST1", ()⟩, none), n + 1)
  Destroy := fun n => (none, n + 1)
  NewGetFleetRoleCredentials := fun n => (⟨"", "", n⟩, n)

/-- A hosting client whose every entry point fails; the credentials call
returns a partly filled record next to its error. -/
def failEnv : Env ExOther (List String) Unit Nat Unit String Nat where
  InitSDK := fun _ n => (some "init failed", n + 1)
  InitSDKFromEnvironment := fun n => (some "init failed", n + 1)
  ProcessReady := fun _ n => (some "not ready", n + 1)
  ProcessEnding := fun n => (some "ending failed", n + 1)
  ActivateGameSession := fun n => (some "no session", n + 1)
  GetFleetRoleCredentials := fun _ n => ((⟨"AK-partial", "SK-partial", "", ()⟩, some "denied"), n + 1)
  Destroy := fun n => (some "destroy failed", n + 1)
  NewGetFleetRoleCredentials := fun n => (⟨"", "", n⟩, n)

/-- A fresh world: nothing logged, nothing called, client state `0`. -/
def world0 : World Unit ExOther (List String) Unit Nat Nat := ⟨[], 0⟩

/-- The `ServerParameters` of the specification's example. -/
def exParams : ServerParameters ExOther :=
  { AuthToken := "secret1", AccessKey := "AKIA...", SecretKey := "xyz", SessionToken := "tok",
    Other := [("Port", "7777")] }

/-- The same parameters with other secrets. -/
def exParams2 : ServerParameters ExOther :=
  { AuthToken := "hunter2", AccessKey := "AKIB...", SecretKey := "abc", SessionToken := "kot",
    Other := [("Port", "7777")] }

/-- Parameters whose authentication token is the word inside the placeholder
and whose secret key is part of a non-sensitive field. -/
def clashParams : ServerParameters ExOther :=
  { AuthToken := "REDACTED", AccessKey := "AKIA...", SecretKey := "xyz", SessionToken := "tok",
    Other := [("Port", "7777"), ("FleetID", "fleet-xyz")] }

section Runs

variable {Ctx ρ L π κ γ ε σ : Type}

/-! ## What each method does to the world -/

theorem drop_trace {α : Type} (t : List α) (a b : α) :
    ((t ++ [a]) ++ [b]).drop t.length = [a, b] := by
  rw [List.append_assoc, List.drop_left]
  rfl

theorem run_InitSDK (env : Env ρ L π κ γ ε σ) (ctx : Ctx) (p : ServerParameters ρ)
    (w : World Ctx ρ L π κ σ) :
    (Sdk.InitSDK env ctx p).run w =
      ((env.InitSDK p w.server).1,
        { trace := (w.trace ++ [Event.log ⟨ctx, Level.Debug, "InitSDK called",
              [("params", LogValue.serverParameters
                ⟨"<REDACTED>", "<REDACTED>", "<REDACTED>", "<REDACTED>", p.Other⟩)]⟩])
            ++ [Event.call (ServerCall.InitSDK p)],
          server := (env.InitSDK p w.server).2 }) :=
  rfl

theorem run_InitSDKFromEnvironment (env : Env ρ L π κ γ ε σ) (ctx : Ctx)
    (w : World Ctx ρ L π κ σ) :
    (Sdk.InitSDKFromEnvironment env ctx).run w =
      ((env.InitSDKFromEnvironment w.server).1,
        { trace := (w.trace ++ [Event.log ⟨ctx, Level.Debug, "InitSDKFromEnvironment called", []⟩])
            ++ [Event.call ServerCall.InitSDKFromEnvironment],
          server := (env.InitSDKFromEnvironment w.server).2 }) :=
  rfl

theorem run_ProcessReady (env : Env ρ L π κ γ ε σ) (ctx : Ctx) (p : ProcessParameters L π)
    (w : World Ctx ρ L π κ σ) :
    (Sdk.ProcessReady env ctx p).run w =
      ((env.ProcessReady p w.server).1,
        { trace := (w.trace ++ [Event.log ⟨ctx, Level.Debug, "ProcessReady called",
              [("port", LogValue.int p.Port),
               ("logParams", LogValue.logParameters p.LogParameters)]⟩])
            ++ [Event.call (ServerCall.ProcessReady p)],
          server := (env.ProcessReady p w.server).2 }) :=
  rfl

theorem run_ProcessEnding (env : Env ρ L π κ γ ε σ) (ctx : Ctx) (w : World Ctx ρ L π κ σ) :
    (Sdk.ProcessEnding env ctx).run w =
      ((env.ProcessEnding w.server).1,
        { trace := (w.trace ++ [Event.log ⟨ctx, Level.Debug, "ProcessEnding called", []⟩])
            ++ [Event.call ServerCall.ProcessEnding],
          server := (env.ProcessEnding w.server).2 }) :=
  rfl

theorem run_ActivateGameSession (env : Env ρ L π κ γ ε σ) (ctx : Ctx)
    (w : World Ctx ρ L π κ σ) :
    (Sdk.ActivateGameSession env ctx).run w =
      ((env.ActivateGameSession w.server).1,
        { trace := (w.trace ++ [Event.log ⟨ctx, Level.Debug, "ActivateGameSession called", []⟩])
            ++ [Event.call ServerCall.ActivateGameSession],
          server := (env.ActivateGameSession w.server).2 }) :=
  rfl

theorem run_Destroy (env : Env ρ L π κ γ ε σ) (ctx : Ctx) (w : World Ctx ρ L π κ σ) :
    (Sdk.Destroy env ctx).run w =
      ((env.Destroy w.server).1,
        { trace := (w.trace ++ [Event.log ⟨ctx, Level.Debug, "Destroy called", []⟩])
            ++ [Event.call ServerCall.Destroy],
          server := (env.Destroy w.server).2 }) :=
  rfl

/-- The request `GetFleetRoleCredentials` sends when run from client state `s`. -/
theorem run_GetFleetRoleCredentials_trace (env : Env ρ L π κ γ ε σ) (ctx : Ctx)
    (roleArn roleSessionName : String) (w : World Ctx ρ L π κ σ) :
    ((Sdk.GetFleetRoleCredentials env ctx roleArn roleSessionName).run w).2.trace =
      (w.trace ++ [Event.log ⟨ctx, Level.Debug, "GetFleetRoleCredentials called",
          [("roleArn", LogValue.string roleArn),
           ("roleSessionName", LogValue.string roleSessionName)]⟩])
        ++ [Event.call (ServerCall.GetFleetRoleCredentials
              ⟨roleArn, roleSessionName, (env.NewGetFleetRoleCredentials w.server).1.Other⟩)] := by
  simp only [Sdk.GetFleetRoleCredentials, logger.DebugContext, request.NewGetFleetRoleCredentials,
    server.GetFleetRoleCredentials, invoke, StateT.run, bind, StateT.bind, modify, modifyGet,
    MonadStateOf.modifyGet, StateT.modifyGet, get, getThe, MonadStateOf.get, StateT.get, set,
    StateT.set, pure, StateT.pure, MonadState.get, MonadState.modifyGet]
  split <;> rfl

theorem run_GetFleetRoleCredentials_value (env : Env ρ L π κ γ ε σ) (ctx : Ctx)
    (roleArn roleSessionName : String) (w : World Ctx ρ L π κ σ) :
    ((Sdk.GetFleetRoleCredentials env ctx roleArn roleSessionName).run w).1 =
      if ((env.GetFleetRoleCredentials
          ⟨roleArn, roleSessionName, (env.NewGetFleetRoleCredentials w.server).1.Other⟩
          (env.NewGetFleetRoleCredentials w.server).2).1.2).isSome = true then
        ("", "", "", (env.GetFleetRoleCredentials
          ⟨roleArn, roleSessionName, (env.NewGetFleetRoleCredentials w.server).1.Other⟩
          (env.NewGetFleetRoleCredentials w.server).2).1.2)
      else
        ((env.GetFleetRoleCredentials
          ⟨roleArn, roleSessionName, (env.NewGetFleetRoleCredentials w.server).1.Other⟩
          (env.NewGetFleetRoleCredentials w.server).2).1.1.AccessKeyID,
         (env.GetFleetRoleCredentials
          ⟨roleArn, roleSessionName, (env.NewGetFleetRoleCredentials w.server).1.Other⟩
          (env.NewGetFleetRoleCredentials w.server).2).1.1.SecretAccessKey,
         (env.GetFleetRoleCredentials
          ⟨roleArn, roleSessionName, (env.NewGetFleetRoleCredentials w.server).1.Other⟩
          (env.NewGetFleetRoleCredentials w.server).2).1.1.SessionToken,
         none) := by
  simp only [Sdk.GetFleetRoleCredentials, logger.DebugContext, request.NewGetFleetRoleCredentials,
    server.GetFleetRoleCredentials, invoke, StateT.run, bind, StateT.bind, modify, modifyGet,
    MonadStateOf.modifyGet, StateT.modifyGet, get, getThe, MonadStateOf.get, StateT.get, set,
    StateT.set, pure, StateT.pure, MonadState.get, MonadState.modifyGet]
  split <;> rfl

theorem emitted_GetFleetRoleCredentials (env : Env ρ L π κ γ ε σ) (ctx : Ctx)
    (roleArn roleSessionName : String) (w : World Ctx ρ L π κ σ) :
    emitted (Sdk.GetFleetRoleCredentials env ctx roleArn roleSessionName) w =
      [Event.log ⟨ctx, Level.Debug, "GetFleetRoleCredentials called",
          [("roleArn", LogValue.string roleArn),
           ("roleSessionName", LogValue.string roleSessionName)]⟩,
       Event.call (ServerCall.GetFleetRoleCredentials
          ⟨roleArn, roleSessionName, (env.NewGetFleetRoleCredentials w.server).1.Other⟩)] := by
  unfold emitted
  rw [run_GetFleetRoleCredentials_trace, drop_trace]

/-! ## `InitSDK`: redaction -/

/-- C1: for every `ServerParameters` value `p`, what `InitSDK` hands to the
logging sink under the key `params` is exactly one record, equal to `p` with
`AuthToken`, `AccessKey`, `SecretKey` and `SessionToken` each replaced by the
literal `<REDACTED>` and every other field as in `p`. -/
theorem InitSDK_logs_redacted_copy (env : Env ρ L π κ γ ε σ) (ctx : Ctx)
    (p : ServerParameters ρ) (w : World Ctx ρ L π κ σ) :
    loggedUnder "params" (emitted (Sdk.InitSDK env ctx p) w) =
      [LogValue.serverParameters
        { AuthToken := "<REDACTED>", AccessKey := "<REDACTED>", SecretKey := "<REDACTED>",
          SessionToken := "<REDACTED>", Other := p.Other }] := by
  simp [emitted, run_InitSDK, drop_trace, loggedUnder, logRecords]

/-- C2: for every `ServerParameters` value `p`, the one hosting client call
`InitSDK` makes is `server.InitSDK` with `p` itself, secrets included, and the
client is left in the state its initializer reaches on `p`: building the
redacted copy does not touch the delegated value. -/
theorem InitSDK_delegates_original (env : Env ρ L π κ γ ε σ) (ctx : Ctx)
    (p : ServerParameters ρ) (w : World Ctx ρ L π κ σ) :
    serverCalls (emitted (Sdk.InitSDK env ctx p) w) = [ServerCall.InitSDK p] ∧
      ((Sdk.InitSDK env ctx p).run w).2.server = (env.InitSDK p w.server).2 := by
  simp [emitted, run_InitSDK, drop_trace, serverCalls]

/-- C3, as stated, fails: `clashParams` has four non-empty secrets, yet a
secret is a substring of a field of the record `InitSDK` logs.  Its
authentication token `REDACTED` is a substring of the placeholder that stands
in the logged `AuthToken` field, and its secret key `xyz` is a substring of the
non-sensitive field `fleet-xyz`, which is logged as it is. -/
theorem InitSDK_secret_substring_of_log :
    (∀ s ∈ clashParams.secrets, s ≠ "") ∧
      ∃ r ∈ loggedParameters
          (loggedUnder "params" (emitted (Sdk.InitSDK okEnv () clashParams) world0)),
        (∃ s ∈ clashParams.secrets, ∃ f ∈ r.fields exOthers, occursIn s f) ∧
          occursIn clashParams.AuthToken r.AuthToken ∧
          ∃ f ∈ exOthers r.Other, occursIn clashParams.SecretKey f := by
  decide

/-- C3, amended: for every `ServerParameters` input whose four secrets are
non-empty and are substrings neither of the placeholder `<REDACTED>` nor of a
non-sensitive field of the input, `InitSDK` logs exactly one record and none of
the four secrets is a substring of any field of it. -/
theorem InitSDK_log_free_of_secrets (others : ρ → List String) (env : Env ρ L π κ γ ε σ)
    (ctx : Ctx) (p : ServerParameters ρ) (w : World Ctx ρ L π κ σ)
    (_hne : ∀ s ∈ p.secrets, s ≠ "")
    (hplace : ∀ s ∈ p.secrets, ¬ occursIn s "<REDACTED>")
    (hother : ∀ s ∈ p.secrets, ∀ f ∈ others p.Other, ¬ occursIn s f) :
    ∃ r, loggedParameters (loggedUnder "params" (emitted (Sdk.InitSDK env ctx p) w)) = [r] ∧
      ∀ s ∈ p.secrets, ∀ f ∈ r.fields others, ¬ occursIn s f := by
  refine ⟨⟨"<REDACTED>", "<REDACTED>", "<REDACTED>", "<REDACTED>", p.Other⟩, ?_, ?_⟩
  · simp [emitted, run_InitSDK, drop_trace, loggedUnder, logRecords, loggedParameters]
  · intro s hs f hf
    simp only [ServerParameters.fields, List.mem_append, List.mem_cons, List.mem_singleton,
      List.not_mem_nil, or_false] at hf
    rcases hf with (rfl | rfl | rfl | rfl) | hf
    · exact hplace s hs
    · exact hplace s hs
    · exact hplace s hs
    · exact hplace s hs
    · exact hother s hs f hf

theorem InitSDK_log_free_of_secrets_witness :
    (∀ s ∈ exParams.secrets, s ≠ "") ∧
      ∃ r, loggedParameters
          (loggedUnder "params" (emitted (Sdk.InitSDK okEnv () exParams) world0)) = [r] ∧
        ∀ s ∈ exParams.secrets, ∀ f ∈ r.fields exOthers, ¬ occursIn s f :=
  ⟨by decide,
    InitSDK_log_free_of_secrets exOthers okEnv () exParams world0 (by decide) (by decide)
      (by decide)⟩

/-- C10: the log of `InitSDK` does not depend on the secrets: for two
`ServerParameters` values that agree on every field other than `AuthToken`,
`AccessKey`, `SecretKey` and `SessionToken`, the records `InitSDK` emits
(context, level, message and logged values) are the same, whatever the hosting
client and the world each call runs in. -/
theorem InitSDK_log_independent_of_secrets (env₁ env₂ : Env ρ L π κ γ ε σ) (ctx : Ctx)
    (p q : ServerParameters ρ) (w₁ w₂ : World Ctx ρ L π κ σ) (h : p.Other = q.Other) :
    logRecords (emitted (Sdk.InitSDK env₁ ctx p) w₁) =
      logRecords (emitted (Sdk.InitSDK env₂ ctx q) w₂) := by
  simp [emitted, run_InitSDK, drop_trace, logRecords, h]

theorem InitSDK_log_independent_of_secrets_witness :
    exParams.AuthToken ≠ exParams2.AuthToken ∧
      logRecords (emitted (Sdk.InitSDK okEnv () exParams) world0) =
        logRecords (emitted (Sdk.InitSDK failEnv () exParams2) world0) :=
  ⟨by decide, InitSDK_log_independent_of_secrets okEnv failEnv () exParams exParams2 world0 world0 rfl⟩

/-! ## `GetFleetRoleCredentials` -/

/-- C4: for every role identifier and session name, if the hosting client's
credentials call (on the request of C8, in the state the constructor leaves)
returns a non-nil error `e`, next to whatever credentials record `creds`, then
`GetFleetRoleCredentials` returns three empty strings and the error `e`. -/
theorem GetFleetRoleCredentials_on_error (env : Env ρ L π κ γ ε σ) (ctx : Ctx)
    (roleArn roleSessionName : String) (w : World Ctx ρ L π κ σ)
    (creds : GetFleetRoleCredentialsResult γ) (e : ε)
    (h : (env.GetFleetRoleCredentials
        ⟨roleArn, roleSessionName, (env.NewGetFleetRoleCredentials w.server).1.Other⟩
        (env.NewGetFleetRoleCredentials w.server).2).1 = (creds, some e)) :
    returned (Sdk.GetFleetRoleCredentials env ctx roleArn roleSessionName) w =
      ("", "", "", some e) := by
  unfold returned
  rw [run_GetFleetRoleCredentials_value, h]
  rfl

theorem GetFleetRoleCredentials_on_error_witness :
    returned (Sdk.GetFleetRoleCredentials failEnv () "arn:aws:iam::role" "session-A") world0 =
      ("", "", "", some "denied") :=
  GetFleetRoleCredentials_on_error failEnv () "arn:aws:iam::role" "session-A" world0
    ⟨"AK-partial", "SK-partial", "", ()⟩ "denied" rfl

/-- C5: for every role identifier and session name, if the hosting client's
credentials call (on the request of C8, in the state the constructor leaves)
returns the record `creds` with a nil error, then `GetFleetRoleCredentials`
returns `creds.AccessKeyID`, `creds.SecretAccessKey`, `creds.SessionToken` and
nil, in that order. -/
theorem GetFleetRoleCredentials_on_success (env : Env ρ L π κ γ ε σ) (ctx : Ctx)
    (roleArn roleSessionName : String) (w : World Ctx ρ L π κ σ)
    (creds : GetFleetRoleCredentialsResult γ)
    (h : (env.GetFleetRoleCredentials
        ⟨roleArn, roleSessionName, (env.NewGetFleetRoleCredentials w.server).1.Other⟩
        (env.NewGetFleetRoleCredentials w.server).2).1 = (creds, none)) :
    returned (Sdk.GetFleetRoleCredentials env ctx roleArn roleSessionName) w =
      (creds.AccessKeyID, creds.SecretAccessKey, creds.SessionToken, none) := by
  unfold returned
  rw [run_GetFleetRoleCredentials_value, h]
  rfl

theorem GetFleetRoleCredentials_on_success_witness :
    returned (Sdk.GetFleetRoleCredentials okEnv () "arn:aws:iam::role" "session-A") world0 =
      ("AK1", "SK1", "ST1", none) :=
  GetFleetRoleCredentials_on_success okEnv () "arn:aws:iam::role" "session-A" world0
    ⟨"AK1", "SK1", "ST1", ()⟩ rfl

/-! ## Pass-through -/

/-- C6: for `InitSDK`, `InitSDKFromEnvironment`, `ProcessReady`,
`ProcessEnding`, `ActivateGameSession` and `Destroy`, and every input, the
value the adapter returns is the value (nil or error) that the corresponding
hosting client entry point returns on the adapter's argument in the client
state at the time of the call. -/
theorem adapter_returns_client_result (env : Env ρ L π κ γ ε σ) (ctx : Ctx)
    (sp : ServerParameters ρ) (pp : ProcessParameters L π) (w : World Ctx ρ L π κ σ) :
    returned (Sdk.InitSDK env ctx sp) w = (env.InitSDK sp w.server).1 ∧
      returned (Sdk.InitSDKFromEnvironment env ctx) w = (env.InitSDKFromEnvironment w.server).1 ∧
      returned (Sdk.ProcessReady env ctx pp) w = (env.ProcessReady pp w.server).1 ∧
      returned (Sdk.ProcessEnding env ctx) w = (env.ProcessEnding w.server).1 ∧
      returned (Sdk.ActivateGameSession env ctx) w = (env.ActivateGameSession w.server).1 ∧
      returned (Sdk.Destroy env ctx) w = (env.Destroy w.server).1 :=
  ⟨rfl, rfl, rfl, rfl, rfl, rfl⟩

/-- C7: one call of `ProcessReady`, `ProcessEnding`, `ActivateGameSession` or
`Destroy` makes exactly one hosting client call, to the corresponding entry
point (`server.ProcessReady` with the unmodified `ProcessParameters`), and no
other, whatever the client answers: the calls noted in the trace are that one
call, and the client is left in the state which one application of that entry
point, to the state before the call, reaches. -/
theorem passthrough_calls_delegate_once (env : Env ρ L π κ γ ε σ) (ctx : Ctx)
    (pp : ProcessParameters L π) (w : World Ctx ρ L π κ σ) :
    (serverCalls (emitted (Sdk.ProcessReady env ctx pp) w) = [ServerCall.ProcessReady pp] ∧
        ((Sdk.ProcessReady env ctx pp).run w).2.server = (env.ProcessReady pp w.server).2) ∧
      (serverCalls (emitted (Sdk.ProcessEnding env ctx) w) = [ServerCall.ProcessEnding] ∧
        ((Sdk.ProcessEnding env ctx).run w).2.server = (env.ProcessEnding w.server).2) ∧
      (serverCalls (emitted (Sdk.ActivateGameSession env ctx) w) =
          [ServerCall.ActivateGameSession] ∧
        ((Sdk.ActivateGameSession env ctx).run w).2.server =
          (env.ActivateGameSession w.server).2) ∧
      (serverCalls (emitted (Sdk.Destroy env ctx) w) = [ServerCall.Destroy] ∧
        ((Sdk.Destroy env ctx).run w).2.server = (env.Destroy w.server).2) := by
  simp [emitted, run_ProcessReady, run_ProcessEnding, run_ActivateGameSession, run_Destroy,
    drop_trace, serverCalls]

/-- C9: each of the seven methods emits exactly one log record per call, at
debug level, and emits it before its single hosting client call, whatever the
client then answers; the record of `ProcessReady` carries the port and the
logging configuration of its input, the record of `GetFleetRoleCredentials`
the role identifier and the session name. -/
theorem one_debug_record_before_delegate (env : Env ρ L π κ γ ε σ) (ctx : Ctx)
    (sp : ServerParameters ρ) (pp : ProcessParameters L π) (r s : String)
    (w : World Ctx ρ L π κ σ) :
    emitted (Sdk.InitSDK env ctx sp) w =
        [Event.log ⟨ctx, Level.Debug, "InitSDK called",
            [("params", LogValue.serverParameters
              ⟨"<REDACTED>", "<REDACTED>", "<REDACTED>", "<REDACTED>", sp.Other⟩)]⟩,
          Event.call (ServerCall.InitSDK sp)] ∧
      emitted (Sdk.InitSDKFromEnvironment env ctx) w =
        [Event.log ⟨ctx, Level.Debug, "InitSDKFromEnvironment called", []⟩,
          Event.call ServerCall.InitSDKFromEnvironment] ∧
      emitted (Sdk.ProcessReady env ctx pp) w =
        [Event.log ⟨ctx, Level.Debug, "ProcessReady called",
            [("port", LogValue.int pp.Port),
             ("logParams", LogValue.logParameters pp.LogParameters)]⟩,
          Event.call (ServerCall.ProcessReady pp)] ∧
      emitted (Sdk.ProcessEnding env ctx) w =
        [Event.log ⟨ctx, Level.Debug, "ProcessEnding called", []⟩,
          Event.call ServerCall.ProcessEnding] ∧
      emitted (Sdk.ActivateGameSession env ctx) w =
        [Event.log ⟨ctx, Level.Debug, "ActivateGameSession called", []⟩,
          Event.call ServerCall.ActivateGameSession] ∧
      emitted (Sdk.GetFleetRoleCredentials env ctx r s) w =
        [Event.log ⟨ctx, Level.Debug, "GetFleetRoleCredentials called",
            [("roleArn", LogValue.string r), ("roleSessionName", LogValue.string s)]⟩,
          Event.call (ServerCall.GetFleetRoleCredentials
            ⟨r, s, (env.NewGetFleetRoleCredentials w.server).1.Other⟩)] ∧
      emitted (Sdk.Destroy env ctx) w =
        [Event.log ⟨ctx, Level.Debug, "Destroy called", []⟩,
          Event.call ServerCall.Destroy] := by
  refine ⟨?_, ?_, ?_, ?_, ?_, emitted_GetFleetRoleCredentials env ctx r s w, ?_⟩ <;>
    simp [emitted, run_InitSDK, run_InitSDKFromEnvironment, run_ProcessReady, run_ProcessEnding,
      run_ActivateGameSession, run_Destroy, drop_trace]

end Runs

end GameLift
